import Mathlib

/-!
Verification of the PLUMED input generator demonstrated in
`simplify_input.ipynb`.  The notebook builds a nested configuration
dictionary, calls `plm.generate_input(topology, **plumed)` and then prints
the resulting `plumed.dat` file.  The body of `generate_input` lives in the
external `plumitas` package, so the generator below is modelled from the
specification and validated against the exact file contents recorded in the
notebook's output cell.
-/

namespace Plumitas

/-- A topology provider, the external collaborator: it answers VMD-style
selection queries with 0-based atom indices and resolves a named atom of a
given residue to its 0-based index. -/
structure Topology where
  select : String → List Nat
  atomIndex : String → Int → Option Nat

/-- One entry of the `header` section of a configuration, in insertion
order: a `restart` flag or a `wholemolecules` list of selection strings. -/
inductive HeaderEntry where
  | restart (b : Bool)
  | wholemolecules (sels : List String)
deriving DecidableEq

/-- A `groups` action: `com` holds a selection expression. -/
inductive GroupAction where
  | com (sel : String)
deriving DecidableEq

/-- A `collective_variables` action: `torsion` with an explicit `atoms`
string (may be empty), an `angle` name and a residue id. -/
inductive CVAction where
  | torsion (atoms : String) (angle : String) (resid : Int)
deriving DecidableEq

/-- The nested configuration: five fixed top-level sections, each an
insertion-ordered association list from a user-chosen label (or action
name, for `bias` and `footer`) to its parameters. -/
structure PlumedConfig where
  header : List HeaderEntry
  groups : List (String × GroupAction)
  collective_variables : List (String × CVAction)
  bias : List (String × List (String × String))
  footer : List (String × List (String × String))

/-- Concatenate a list of strings. -/
def joinAll : List String → String
  | [] => ""
  | s :: ss => s ++ joinAll ss

/-- Uppercase a string character by character (parameter keywords are
rendered uppercased). -/
def upper (s : String) : String := String.mk (s.data.map Char.toUpper)

/-- Comma-join a list of atom indices exactly as the topology provider
returned them.  The notebook's recorded output (`ENTITY0=0,1,...,21`)
shows the 0-based indices verbatim: no 1-based shift is applied. -/
def renderIndices (xs : List Nat) : String :=
  String.intercalate "," (xs.map toString)

/-- The rendering the specification describes instead: every 0-based index
incremented by one before comma-joining.  Kept for comparison with
`renderIndices`; it is not what the program produces. -/
def renderIndicesOneBasedClaim (xs : List Nat) : String :=
  String.intercalate "," ((xs.map (fun i => i + 1)).map toString)

/-- Modelled from the spec: the `WHOLEMOLECULES` header line.  Each
selection becomes `ENTITYi=<indices> ` with a trailing space, matching the
notebook's recorded output. -/
def wholemoleculesLine (top : Topology) (sels : List String) : String :=
  "WHOLEMOLECULES " ++
    joinAll (sels.enum.map
      (fun p => "ENTITY" ++ toString p.1 ++ "=" ++ renderIndices (top.select p.2) ++ " "))

/-- Modelled from the spec: lines emitted for one header entry.  A falsy
`restart` flag emits nothing; a truthy one emits a `RESTART` directive. -/
def headerEntryLines (top : Topology) : HeaderEntry → List String
  | .restart b => if b then ["RESTART"] else []
  | .wholemolecules sels => [wholemoleculesLine top sels]

/-- Modelled from the spec: the header section, entries in insertion order. -/
def headerSection (top : Topology) (hs : List HeaderEntry) : List String :=
  (hs.map (headerEntryLines top)).flatten

/-- Modelled from the spec: lines for one `groups` entry.  A `com` action
renders as a single inline-labeled line. -/
def groupEntryLines (top : Topology) (e : String × GroupAction) : List String :=
  match e.2 with
  | .com sel => [e.1 ++ ": COM ATOMS=" ++ renderIndices (top.select sel)]

/-- Modelled from the spec: the groups section, entries in insertion order. -/
def groupsSection (top : Topology) (gs : List (String × GroupAction)) : List String :=
  (gs.map (groupEntryLines top)).flatten

/-- Modelled from the spec: canonical atom names (with residue offsets) of
the named backbone dihedral, used by the torsion convenience mode. -/
def canonicalDihedral (angle : String) : Option (List (String × Int)) :=
  if angle = "phi" then some [("C", -1), ("N", 0), ("CA", 0), ("C", 0)]
  else if angle = "psi" then some [("N", 0), ("CA", 0), ("C", 0), ("N", 1)]
  else none

/-- Modelled from the spec: resolve each canonical atom name at its residue
to an index through the topology provider, failing on the first atom the
provider cannot resolve. -/
def resolveAtoms (top : Topology) (resid : Int) :
    List (String × Int) → Except String (List Nat)
  | [] => .ok []
  | (nm, off) :: rest =>
    match top.atomIndex nm (resid + off) with
    | none => .error ("cannot resolve atom " ++ nm)
    | some i =>
      match resolveAtoms top resid rest with
      | .error e => .error e
      | .ok is => .ok (i :: is)

/-- Modelled from the spec: lines for one collective-variable entry.  An
explicit non-empty `atoms` string passes through untouched; an empty one
triggers the dihedral lookup by `angle` and `resid`. -/
def cvEntryLines (top : Topology) (e : String × CVAction) : Except String (List String) :=
  match e.2 with
  | .torsion atoms angle resid =>
    if atoms = "" then
      match canonicalDihedral angle with
      | none => .error ("unknown angle " ++ angle)
      | some ds =>
        match resolveAtoms top resid ds with
        | .error e => .error e
        | .ok is => .ok [e.1 ++ ": TORSION " ++ renderIndices is]
    else .ok [e.1 ++ ": TORSION " ++ atoms]

/-- Modelled from the spec: the collective-variables section, entries in
insertion order, propagating the first resolution error. -/
def cvSection (top : Topology) : List (String × CVAction) → Except String (List String)
  | [] => .ok []
  | e :: rest =>
    match cvEntryLines top e with
    | .error er => .error er
    | .ok ls =>
      match cvSection top rest with
      | .error er => .error er
      | .ok rs => .ok (ls ++ rs)

/-- Modelled from the spec: lines for one bias entry: an opening
`ACTION ...` line, one uppercased `PARAM=value` line per parameter in
insertion order, and a closing `... ACTION` line. -/
def biasEntryLines (e : String × List (String × String)) : List String :=
  (upper e.1 ++ " ...") ::
    (e.2.map (fun p => upper p.1 ++ "=" ++ p.2)) ++ ["... " ++ upper e.1]

/-- Modelled from the spec: the bias section, entries in insertion order. -/
def biasSection (bs : List (String × List (String × String))) : List String :=
  (bs.map biasEntryLines).flatten

/-- Modelled from the spec: a footer entry renders as one line: the action
uppercased followed by `PARAM=value ` pairs, each with a trailing space. -/
def footerEntryLines (e : String × List (String × String)) : List String :=
  [upper e.1 ++ " " ++ joinAll (e.2.map (fun p => upper p.1 ++ "=" ++ p.2 ++ " "))]

/-- Modelled from the spec: the footer section, entries in insertion order. -/
def footerSection (fs : List (String × List (String × String))) : List String :=
  (fs.map footerEntryLines).flatten

/-- All selection expressions a header entry needs resolved. -/
def headerEntrySelections : HeaderEntry → List String
  | .restart _ => []
  | .wholemolecules sels => sels

/-- All selection expressions a groups entry needs resolved. -/
def groupSelections (e : String × GroupAction) : List String :=
  match e.2 with
  | .com sel => [sel]

/-- Every selection expression the configuration asks the topology to
resolve. -/
def configSelections (cfg : PlumedConfig) : List String :=
  (cfg.header.map headerEntrySelections).flatten ++ (cfg.groups.map groupSelections).flatten

/-- Modelled from the spec: the full list of output lines, sections in the
fixed order header, groups, collective variables, bias, footer, each
followed by one blank line.  Fails before producing anything when a
selection resolves to zero atoms (the spec's configuration-error invariant)
or a torsion lookup fails.  This models the body of
`plumitas.generate_input`, which is not part of this repository. -/
def generateLines (top : Topology) (cfg : PlumedConfig) : Except String (List String) :=
  if (configSelections cfg).all (fun s => !(top.select s).isEmpty) then
    match cvSection top cfg.collective_variables with
    | .error e => .error e
    | .ok cv =>
      .ok (headerSection top cfg.header ++ [""] ++ groupsSection top cfg.groups ++ [""]
        ++ cv ++ [""] ++ biasSection cfg.bias ++ [""] ++ footerSection cfg.footer ++ [""])
  else .error "selection matched zero atoms"

/-- Modelled from the spec: `generate_input` writes the newline-joined
lines to the fixed relative path `plumed.dat` and returns nothing else; the
write is modelled as the returned (path, contents) pair.  On any error
nothing is written. -/
def generate_input (top : Topology) (cfg : PlumedConfig) : Except String (String × String) :=
  match generateLines top cfg with
  | .error e => .error e
  | .ok ls => .ok ("plumed.dat", String.intercalate "\n" ls ++ "\n")

/-! ### The notebook's concrete topology and configuration

The topology is `data/topology/conf.gro`, an alanine dipeptide (22 atoms).
The selection results below are the provider's 0-based index lists; they
reproduce exactly the notebook's recorded output under `generateLines`. -/

/-- The 0-based selection results of the notebook's topology. -/
def exampleSelect : String → List Nat
  | "protein" => List.range 22
  | "resname ALA" => [6, 7, 8, 9, 10, 11, 12, 13, 14, 15]
  | "sidechain and resname ALA" => [7, 9, 10, 11, 12, 13]
  | _ => []

/-- Named-atom lookup of the notebook's topology: 0-based indices of the
backbone atoms around residue 2 (the alanine). -/
def exampleAtomIndex (nm : String) (r : Int) : Option Nat :=
  if nm = "C" ∧ r = 1 then some 4
  else if nm = "N" ∧ r = 2 then some 6
  else if nm = "CA" ∧ r = 2 then some 8
  else if nm = "C" ∧ r = 2 then some 14
  else none

/-- The notebook's topology provider. -/
def exampleTop : Topology := ⟨exampleSelect, exampleAtomIndex⟩

/-- The notebook's `plumed` configuration dictionary, in its insertion
order. -/
def examplePlumed : PlumedConfig where
  header := [.restart false, .wholemolecules ["protein", "resname ALA"]]
  groups := [("sidechain_com", .com "sidechain and resname ALA")]
  collective_variables :=
    [("phi", .torsion "" "phi" 2), ("psi", .torsion "7,9,15,17" "psi" 2)]
  bias := [("pbmetad",
    [("label", "pbmetad"), ("arg", "phi,psi"), ("temp", "300"), ("pace", "500"),
     ("biasfactor", "15"), ("height", "1.2"), ("sigma", "0.35,0.35"),
     ("grid_min", "-pi,-pi"), ("grid_max", "pi,pi"),
     ("grid_spacing", "0.1,0.1"), ("file", "HILLS_phi,HILLS_psi")])]
  footer := [("print",
    [("stride", "500"), ("arg", "phi,psi,pbmetad.bias"), ("file", "COLVAR")])]

/-- The `plumed.dat` contents recorded in the notebook's output cell, line
by line (a final newline follows the last listed line). -/
def notebookLines : List String :=
  ["WHOLEMOLECULES ENTITY0=0,1,2,3,4,5,6,7,8,9,10,11,12,13,14,15,16,17,18,19,20,21 ENTITY1=6,7,8,9,10,11,12,13,14,15 ",
   "",
   "sidechain_com: COM ATOMS=7,9,10,11,12,13",
   "",
   "phi: TORSION 4,6,8,14",
   "psi: TORSION 7,9,15,17",
   "",
   "PBMETAD ...",
   "LABEL=pbmetad",
   "ARG=phi,psi",
   "TEMP=300",
   "PACE=500",
   "BIASFACTOR=15",
   "HEIGHT=1.2",
   "SIGMA=0.35,0.35",
   "GRID_MIN=-pi,-pi",
   "GRID_MAX=pi,pi",
   "GRID_SPACING=0.1,0.1",
   "FILE=HILLS_phi,HILLS_psi",
   "... PBMETAD",
   "",
   "PRINT STRIDE=500 ARG=phi,psi,pbmetad.bias FILE=COLVAR ",
   ""]

/-- The modelled generator reproduces the notebook's recorded `plumed.dat`
exactly, validating the model against the repository's only recorded
behavior. -/
theorem generate_matches_notebook :
    generateLines exampleTop examplePlumed = .ok notebookLines := by
  rfl

/-- A successful `canonicalDihedral` lookup always names exactly 4 atoms. -/
theorem canonicalDihedral_length (angle : String) (ds : List (String × Int))
    (h : canonicalDihedral angle = some ds) : ds.length = 4 := by
  unfold canonicalDihedral at h
  split at h
  · cases h; rfl
  · split at h
    · cases h; rfl
    · cases h

/-- A successful `resolveAtoms` returns one index per requested atom. -/
theorem resolveAtoms_length (top : Topology) (resid : Int) (l : List (String × Int)) :
    ∀ is : List Nat, resolveAtoms top resid l = .ok is → is.length = l.length := by
  induction l with
  | nil => intro is h; cases h; rfl
  | cons p rest ih =>
    intro is h
    obtain ⟨nm, off⟩ := p
    simp only [resolveAtoms] at h
    cases hm : top.atomIndex nm (resid + off) with
    | none => rw [hm] at h; cases h
    | some i =>
      rw [hm] at h
      cases hr : resolveAtoms top resid rest with
      | error e => rw [hr] at h; cases h
      | ok js => rw [hr] at h; cases h; simp [ih js hr]

/-- C1 (amended): every resolved atom-selection field renders the topology
provider's index list verbatim — each index is printed as returned (0-based)
and comma-joined, with no increment applied. -/
theorem c1_indices_rendered_verbatim (top : Topology) (sels : List String)
    (label sel : String) :
    wholemoleculesLine top sels =
      "WHOLEMOLECULES " ++ joinAll (sels.enum.map
        (fun p => "ENTITY" ++ toString p.1 ++ "="
          ++ String.intercalate "," ((top.select p.2).map toString) ++ " ")) ∧
    groupEntryLines top (label, GroupAction.com sel) =
      [label ++ ": COM ATOMS=" ++ String.intercalate "," ((top.select sel).map toString)] :=
  ⟨rfl, rfl⟩

/-- C1 counterexample: in the notebook's own recorded header line the
`protein` entity list is the provider's 0-based indices unchanged, which
differs from the 1-indexed rendering the claim describes (the recorded list
starts at 0, which no incremented list can). -/
theorem c1_counterexample :
    headerSection exampleTop examplePlumed.header =
      ["WHOLEMOLECULES ENTITY0=" ++ renderIndices (exampleTop.select "protein")
        ++ " ENTITY1=" ++ renderIndices (exampleTop.select "resname ALA") ++ " "] ∧
    renderIndices (exampleTop.select "protein")
      ≠ renderIndicesOneBasedClaim (exampleTop.select "protein") :=
  ⟨rfl, by decide⟩

/-- C2: a torsion entry with a non-empty explicit `atoms` string renders
exactly `label: TORSION atoms`; the result is the same for every topology
provider, so no topology query is consulted. -/
theorem c2_explicit_atoms_passthrough (top : Topology) (label atoms angle : String)
    (resid : Int) (h : atoms ≠ "") :
    cvEntryLines top (label, CVAction.torsion atoms angle resid) =
      .ok [label ++ ": TORSION " ++ atoms] := by
  simp [cvEntryLines, h]

/-- C2 witness: the notebook's `psi` entry with explicit atoms `7,9,15,17`
renders exactly `psi: TORSION 7,9,15,17`. -/
theorem c2_witness :
    "7,9,15,17" ≠ "" ∧
    cvEntryLines exampleTop ("psi", CVAction.torsion "7,9,15,17" "psi" 2) =
      .ok ["psi: TORSION 7,9,15,17"] :=
  ⟨by decide, c2_explicit_atoms_passthrough exampleTop "psi" "7,9,15,17" "psi" 2 (by decide)⟩

/-- C3 (amended): a torsion entry with empty `atoms` and a valid angle and
residue renders an atom list of exactly 4 values; the values are the
provider's indices rendered verbatim (0-based), not incremented. -/
theorem c3_torsion_lookup (top : Topology) (label angle : String) (resid : Int)
    (ds : List (String × Int)) (is : List Nat)
    (hca : canonicalDihedral angle = some ds)
    (hres : resolveAtoms top resid ds = .ok is) :
    is.length = 4 ∧
    cvEntryLines top (label, CVAction.torsion "" angle resid) =
      .ok [label ++ ": TORSION " ++ renderIndices is] := by
  constructor
  · rw [resolveAtoms_length top resid ds is hres, canonicalDihedral_length angle ds hca]
  · simp [cvEntryLines, hca, hres]

/-- C3 witness: the notebook's `phi` entry resolves to the 4 indices
`4,6,8,14` and renders `phi: TORSION 4,6,8,14`. -/
theorem c3_witness :
    canonicalDihedral "phi" = some [("C", -1), ("N", 0), ("CA", 0), ("C", 0)] ∧
    resolveAtoms exampleTop 2 [("C", -1), ("N", 0), ("CA", 0), ("C", 0)] = .ok [4, 6, 8, 14] ∧
    ([4, 6, 8, 14] : List Nat).length = 4 ∧
    cvEntryLines exampleTop ("phi", CVAction.torsion "" "phi" 2) =
      .ok ["phi" ++ ": TORSION " ++ renderIndices [4, 6, 8, 14]] :=
  ⟨rfl, rfl, c3_torsion_lookup exampleTop "phi" "phi" 2 _ _ rfl rfl⟩

/-- C3 counterexample: the notebook's `phi` atom list is rendered as the
provider's 0-based indices `4,6,8,14`, not their 1-indexed shift. -/
theorem c3_counterexample :
    resolveAtoms exampleTop 2 [("C", -1), ("N", 0), ("CA", 0), ("C", 0)] = .ok [4, 6, 8, 14] ∧
    cvEntryLines exampleTop ("phi", CVAction.torsion "" "phi" 2) =
      .ok ["phi: TORSION " ++ renderIndices [4, 6, 8, 14]] ∧
    renderIndices [4, 6, 8, 14] ≠ renderIndicesOneBasedClaim [4, 6, 8, 14] :=
  ⟨rfl, rfl, by decide⟩

/-- C4 (amended): a groups entry `{com := sel}` renders the single line
`label: COM ATOMS=<indices>`, where the index list is the topology
provider's result for the selection rendered verbatim (0-based, unshifted). -/
theorem c4_com_line (top : Topology) (label sel : String) :
    groupEntryLines top (label, GroupAction.com sel) =
      [label ++ ": COM ATOMS="
        ++ String.intercalate "," ((top.select sel).map toString)] :=
  rfl

/-- C4 counterexample: the notebook's recorded COM line shows the
provider's 0-based indices `7,9,10,11,12,13`; the 1-indexed rendering of
the same selection result differs from it. -/
theorem c4_counterexample :
    groupsSection exampleTop examplePlumed.groups =
      ["sidechain_com: COM ATOMS=7,9,10,11,12,13"] ∧
    renderIndicesOneBasedClaim (exampleTop.select "sidechain and resname ALA")
      ≠ "7,9,10,11,12,13" :=
  ⟨rfl, by decide⟩

/-- C5: any successfully generated file lists the sections in the fixed
order header, groups, collective variables, bias, footer, one blank line
after each, and within each section the entries appear in the
configuration's insertion order (each section is the in-order concatenation
of its entries' blocks). -/
theorem c5_section_order (top : Topology) (cfg : PlumedConfig) (ls : List String)
    (h : generateLines top cfg = .ok ls) :
    ∃ cv, cvSection top cfg.collective_variables = .ok cv ∧
      ls = (cfg.header.map (headerEntryLines top)).flatten ++ [""]
        ++ (cfg.groups.map (groupEntryLines top)).flatten ++ [""]
        ++ cv ++ [""]
        ++ (cfg.bias.map biasEntryLines).flatten ++ [""]
        ++ (cfg.footer.map footerEntryLines).flatten ++ [""] := by
  unfold generateLines at h
  split at h
  · cases hcv : cvSection top cfg.collective_variables with
    | error e => rw [hcv] at h; cases h
    | ok cv => rw [hcv] at h; cases h; exact ⟨cv, rfl, rfl⟩
  · cases h

/-! ### Re-parsing rendered directives

A small parser for PLUMED's inline `ACTION KEY=value ...` syntax, used to
state the render-then-parse round trip of the `PRINT` footer directive. -/

/-- String append concatenates the underlying character lists. -/
theorem sdata_append (a b : String) : (a ++ b).data = a.data ++ b.data := rfl

/-- The character list of `"="`. -/
theorem eq_data : "=".data = ['='] := rfl

/-- The character list of `" "`. -/
theorem sp_data : " ".data = [' '] := rfl

/-- Rebuilding a string from its character list is the identity. -/
theorem smk_data (s : String) : String.mk s.data = s := rfl

/-- Split a character list at every space. -/
def splitSp : List Char → List (List Char)
  | [] => [[]]
  | c :: cs =>
    if c = ' ' then [] :: splitSp cs
    else
      (c :: (splitSp cs).headI) :: (splitSp cs).tail

/-- Split a character list at its first `=`, when one exists. -/
def splitEq : List Char → Option (List Char × List Char)
  | [] => none
  | c :: cs =>
    if c = '=' then some ([], cs)
    else (splitEq cs).map (fun p => (c :: p.1, p.2))

/-- Parse the `KEY=value` pairs of one rendered directive line: tokens are
space-separated, and each token containing `=` contributes the pair around
its first `=`. -/
def parseParams (s : String) : List (String × String) :=
  (splitSp s.data).filterMap
    (fun t => (splitEq t).map (fun p => (String.mk p.1, String.mk p.2)))

/-- Splitting at spaces peels off a space-free prefix token. -/
theorem splitSp_append (t r : List Char) (h : ' ' ∉ t) :
    splitSp (t ++ ' ' :: r) = t :: splitSp r := by
  induction t with
  | nil => simp [splitSp]
  | cons c cs ih =>
    have hc : ¬ c = ' ' := fun e => h (by simp [e])
    have h2 : ' ' ∉ cs := fun m => h (List.mem_cons_of_mem _ m)
    simp [splitSp, hc, ih h2]

/-- Splitting at the first `=` recovers the two sides when the left one is
`=`-free. -/
theorem splitEq_append (k v : List Char) (h : '=' ∉ k) :
    splitEq (k ++ '=' :: v) = some (k, v) := by
  induction k with
  | nil => simp [splitEq]
  | cons c cs ih =>
    have hc : ¬ c = '=' := fun e => h (by simp [e])
    have h2 : '=' ∉ cs := fun m => h (List.mem_cons_of_mem _ m)
    simp [splitEq, hc, ih h2]

/-- A token without `=` parses to no pair. -/
theorem splitEq_none (t : List Char) (h : '=' ∉ t) : splitEq t = none := by
  induction t with
  | nil => rfl
  | cons c cs ih =>
    have hc : ¬ c = '=' := fun e => h (by simp [e])
    have h2 : '=' ∉ cs := fun m => h (List.mem_cons_of_mem _ m)
    simp [splitEq, hc, ih h2]

/-- Splitting the joined `KEY=value ` pairs at spaces yields one token per
pair plus a final empty token. -/
theorem splitSp_pairs (ps : List (String × String))
    (h : ∀ p ∈ ps, ' ' ∉ (upper p.1).data ∧ ' ' ∉ p.2.data) :
    splitSp (joinAll (ps.map (fun p => upper p.1 ++ "=" ++ p.2 ++ " "))).data =
      (ps.map (fun p => (upper p.1).data ++ '=' :: p.2.data)) ++ [[]] := by
  induction ps with
  | nil => rfl
  | cons p rest ih =>
    have hp := h p (List.mem_cons_self p rest)
    have hrest : ∀ q ∈ rest, ' ' ∉ (upper q.1).data ∧ ' ' ∉ q.2.data :=
      fun q hq => h q (List.mem_cons_of_mem p hq)
    have hnsp : ' ' ∉ (upper p.1).data ++ '=' :: p.2.data := by
      intro hm
      rcases List.mem_append.mp hm with h1 | h1
      · exact hp.1 h1
      · rcases List.mem_cons.mp h1 with h2 | h2
        · exact absurd h2 (by decide)
        · exact hp.2 h2
    have hdata : (joinAll ((p :: rest).map (fun q => upper q.1 ++ "=" ++ q.2 ++ " "))).data
        = ((upper p.1).data ++ '=' :: p.2.data) ++ ' ' ::
            (joinAll (rest.map (fun q => upper q.1 ++ "=" ++ q.2 ++ " "))).data := by
      simp [joinAll, sdata_append, eq_data, sp_data]
    rw [hdata, splitSp_append _ _ hnsp, ih hrest]
    simp

/-- Parsing the per-pair tokens recovers every pair, its key uppercased. -/
theorem filterMap_tokens (ps : List (String × String))
    (h : ∀ p ∈ ps, '=' ∉ (upper p.1).data) :
    (ps.map (fun p => (upper p.1).data ++ '=' :: p.2.data)).filterMap
        (fun t => (splitEq t).map (fun p => (String.mk p.1, String.mk p.2))) =
      ps.map (fun p => (upper p.1, p.2)) := by
  induction ps with
  | nil => rfl
  | cons p rest ih =>
    have hp := h p (List.mem_cons_self p rest)
    have hrest : ∀ q ∈ rest, '=' ∉ (upper q.1).data :=
      fun q hq => h q (List.mem_cons_of_mem p hq)
    simp [List.filterMap_cons, splitEq_append _ _ hp, ih hrest, smk_data]

/-- Re-parsing a rendered inline footer directive recovers exactly the
configured parameters, keys uppercased, for any action and parameter values
free of spaces (and keys additionally free of `=`). -/
theorem parse_footer_roundtrip (a : String) (ps : List (String × String))
    (ha1 : ' ' ∉ (upper a).data) (ha2 : '=' ∉ (upper a).data)
    (h : ∀ p ∈ ps, (' ' ∉ (upper p.1).data ∧ '=' ∉ (upper p.1).data) ∧ ' ' ∉ p.2.data) :
    (footerEntryLines (a, ps)).map parseParams = [ps.map (fun p => (upper p.1, p.2))] := by
  have hkeys : ∀ p ∈ ps, '=' ∉ (upper p.1).data := fun p hp => (h p hp).1.2
  have hjoin := splitSp_pairs ps (fun p hp => ⟨(h p hp).1.1, (h p hp).2⟩)
  have hdata : (upper a ++ " " ++ joinAll (ps.map (fun p => upper p.1 ++ "=" ++ p.2 ++ " "))).data
      = (upper a).data ++ ' ' ::
          (joinAll (ps.map (fun p => upper p.1 ++ "=" ++ p.2 ++ " "))).data := by
    simp [sdata_append, sp_data]
  have hline : parseParams
      (upper a ++ " " ++ joinAll (ps.map (fun p => upper p.1 ++ "=" ++ p.2 ++ " "))) =
      ps.map (fun p => (upper p.1, p.2)) := by
    unfold parseParams
    rw [hdata, splitSp_append _ _ ha1, hjoin]
    rw [List.filterMap_cons, splitEq_none _ ha2]
    simp [List.filterMap_append, filterMap_tokens ps hkeys, splitEq]
  simp [footerEntryLines, hline]

/-- C6: rendering a `PRINT` footer directive and re-parsing the rendered
text recovers exactly the supplied `STRIDE`, `ARG` and `FILE` values
(render-then-parse is the identity on these parameters). -/
theorem c6_print_roundtrip (stride arg file : String)
    (hs : ' ' ∉ stride.data) (ha : ' ' ∉ arg.data) (hf : ' ' ∉ file.data) :
    (footerEntryLines ("print",
        [("stride", stride), ("arg", arg), ("file", file)])).map parseParams =
      [[("STRIDE", stride), ("ARG", arg), ("FILE", file)]] := by
  rw [parse_footer_roundtrip "print" [("stride", stride), ("arg", arg), ("file", file)]
    (by decide) (by decide) ?_]
  · rfl
  · intro p hp
    simp only [List.mem_cons, List.not_mem_nil, or_false] at hp
    rcases hp with rfl | rfl | rfl
    · exact ⟨⟨by show ' ' ∉ (upper "stride").data; decide,
        by show '=' ∉ (upper "stride").data; decide⟩, hs⟩
    · exact ⟨⟨by show ' ' ∉ (upper "arg").data; decide,
        by show '=' ∉ (upper "arg").data; decide⟩, ha⟩
    · exact ⟨⟨by show ' ' ∉ (upper "file").data; decide,
        by show '=' ∉ (upper "file").data; decide⟩, hf⟩

/-- C6 witness: the notebook's PRINT parameters survive the render-parse
round trip. -/
theorem c6_witness :
    (' ' ∉ "500".data ∧ ' ' ∉ "phi,psi,pbmetad.bias".data ∧ ' ' ∉ "COLVAR".data) ∧
    (footerEntryLines ("print",
        [("stride", "500"), ("arg", "phi,psi,pbmetad.bias"), ("file", "COLVAR")])).map
        parseParams =
      [[("STRIDE", "500"), ("ARG", "phi,psi,pbmetad.bias"), ("FILE", "COLVAR")]] :=
  ⟨⟨by decide, by decide, by decide⟩,
   c6_print_roundtrip "500" "phi,psi,pbmetad.bias" "COLVAR" (by decide) (by decide) (by decide)⟩

/-- C7: when any required selection resolves to zero atoms, generation
fails with an error and produces no (path, contents) pair at all: nothing
is written, not even a partial file. -/
theorem c7_empty_selection_fails (top : Topology) (cfg : PlumedConfig) (s : String)
    (hs : s ∈ configSelections cfg) (he : top.select s = []) :
    ∃ e, generate_input top cfg = .error e ∧ ∀ out, generate_input top cfg ≠ .ok out := by
  have hall : ((configSelections cfg).all (fun x => !(top.select x).isEmpty)) = false := by
    apply List.all_eq_false.mpr
    exact ⟨s, hs, by simp [he]⟩
  have hgen : generateLines top cfg = .error "selection matched zero atoms" := by
    unfold generateLines
    rw [hall]
    rfl
  refine ⟨"selection matched zero atoms", ?_, ?_⟩
  · unfold generate_input
    rw [hgen]
  · intro out hout
    unfold generate_input at hout
    rw [hgen] at hout
    cases hout

/-- A configuration whose only entry is a COM group over a selection the
example topology resolves to zero atoms. -/
def emptySelectionConfig : PlumedConfig where
  header := []
  groups := [("solvent_com", GroupAction.com "water")]
  collective_variables := []
  bias := []
  footer := []

/-- C7 witness: a selection matching zero atoms makes generation fail with
no output. -/
theorem c7_witness :
    "water" ∈ configSelections emptySelectionConfig ∧
    exampleTop.select "water" = [] ∧
    ∃ e, generate_input exampleTop emptySelectionConfig = .error e ∧
      ∀ out, generate_input exampleTop emptySelectionConfig ≠ .ok out :=
  ⟨by decide, rfl,
   c7_empty_selection_fails exampleTop emptySelectionConfig "water" (by decide) rfl⟩

/-- C8: a bias entry renders as a multi-line block: an opening
`ACTION ...` line, one uppercased `PARAM=value` line per configured
parameter in insertion order, and a closing `... ACTION` line; an
inline-labeled action (such as a COM group) instead renders as a single
line prefixed `label: `. -/
theorem c8_bias_block (top : Topology) (name label sel : String)
    (params : List (String × String)) :
    biasEntryLines (name, params) =
      [upper name ++ " ..."] ++ (params.map (fun p => upper p.1 ++ "=" ++ p.2))
        ++ ["... " ++ upper name] ∧
    groupEntryLines top (label, GroupAction.com sel) =
      [label ++ ": COM ATOMS=" ++ renderIndices (top.select sel)] :=
  ⟨rfl, rfl⟩

/-- C9: on success `generate_input` produces nothing beyond the modelled
file write: the fixed relative path `plumed.dat` paired with the rendered
lines joined by newlines (one trailing newline), and no other value. -/
theorem c9_output_file (top : Topology) (cfg : PlumedConfig) (out : String × String)
    (h : generate_input top cfg = .ok out) :
    out.1 = "plumed.dat" ∧
    ∃ ls, generateLines top cfg = .ok ls ∧ out.2 = String.intercalate "\n" ls ++ "\n" := by
  unfold generate_input at h
  cases hg : generateLines top cfg with
  | error e => rw [hg] at h; cases h
  | ok ls => rw [hg] at h; cases h; exact ⟨rfl, ls, rfl, rfl⟩

/-- C9 witness: the notebook's configuration produces exactly the pair of
the fixed path and the newline-joined recorded lines. -/
theorem c9_witness :
    generate_input exampleTop examplePlumed =
      .ok ("plumed.dat", String.intercalate "\n" notebookLines ++ "\n") ∧
    (("plumed.dat", String.intercalate "\n" notebookLines ++ "\n") : String × String).1 =
      "plumed.dat" ∧
    ∃ ls, generateLines exampleTop examplePlumed = .ok ls ∧
      (("plumed.dat", String.intercalate "\n" notebookLines ++ "\n") : String × String).2 =
        String.intercalate "\n" ls ++ "\n" := by
  have hok : generate_input exampleTop examplePlumed =
      .ok ("plumed.dat", String.intercalate "\n" notebookLines ++ "\n") := by
    unfold generate_input
    rw [generate_matches_notebook]
  exact ⟨hok, c9_output_file exampleTop examplePlumed _ hok⟩

/-- C10: a header `restart` flag set to `false` emits no directive at all,
for every topology; on the notebook's configuration the first generated
line is therefore the WHOLEMOLECULES line and no `RESTART` line appears
anywhere in the output. -/
theorem c10_restart_false_omitted :
    (∀ top : Topology, headerEntryLines top (HeaderEntry.restart false) = []) ∧
    (∃ rest, notebookLines = wholemoleculesLine exampleTop ["protein", "resname ALA"] :: rest) ∧
    generateLines exampleTop examplePlumed = .ok notebookLines ∧
    "RESTART" ∉ notebookLines :=
  ⟨fun _ => rfl, ⟨notebookLines.tail, rfl⟩, generate_matches_notebook, by decide⟩

/-- C5 witness: the notebook's configuration generates successfully and its
recorded lines decompose into the five sections in the fixed order. -/
theorem c5_witness :
    generateLines exampleTop examplePlumed = .ok notebookLines ∧
    ∃ cv, cvSection exampleTop examplePlumed.collective_variables = .ok cv ∧
      notebookLines = (examplePlumed.header.map (headerEntryLines exampleTop)).flatten ++ [""]
        ++ (examplePlumed.groups.map (groupEntryLines exampleTop)).flatten ++ [""]
        ++ cv ++ [""]
        ++ (examplePlumed.bias.map biasEntryLines).flatten ++ [""]
        ++ (examplePlumed.footer.map footerEntryLines).flatten ++ [""] :=
  ⟨generate_matches_notebook,
   c5_section_order exampleTop examplePlumed notebookLines generate_matches_notebook⟩

end Plumitas
